import Mathlib

/-!
Verification development for the data-storage demonstration script in
`CourseContent/Notebooks/Numpy+Scipy/8-Numpy+ScipyMiscellany.ipynb`.

The script has three independent parts:
* loading a whitespace-delimited text grid file (`np.loadtxt`) and reshaping
  it to `(1801, 3601, 3)`, with the value plane at last-axis index 2;
* loading the same value plane from a compressed `.npz` archive under the
  name `"ageData"` and reconstructing the longitude/latitude planes with
  `np.linspace` and `np.meshgrid`;
* opening a netCDF file and reporting dimension sizes and variable shapes.

Numbers are modelled as rationals (`ℚ`); arrays as index functions or lists;
fallible library calls return `Option`.
-/

namespace AgeGrid

/-- `np.linspace start stop num`, element `i` (numpy's evenly spaced samples,
endpoints included; exact in ℚ). -/
def linspace (start stop : ℚ) (num : ℕ) (i : ℕ) : ℚ :=
  if num ≤ 1 then start else start + i * (stop - start) / ((num : ℚ) - 1)

/-- `lats = np.linspace(90, -90, 1801)` from the notebook. -/
def lats (i : ℕ) : ℚ := linspace 90 (-90) 1801 i

/-- `lons = np.linspace(-180.0, 180.0, 3601)` from the notebook. -/
def lons (j : ℕ) : ℚ := linspace (-180) 180 3601 j

/-- `np.loadtxt`: parse a whitespace-delimited file (given as already
tokenised numeric rows) into a 2-D array, recorded as
(row count, column count, row-major flat data).  Fails (raises) when the
rows are ragged; an empty file gives an empty array. -/
def np_loadtxt (lines : List (List ℚ)) : Option (ℕ × ℕ × List ℚ) :=
  if lines.all (fun r => r.length == (lines.headD []).length) then
    some (lines.length, (lines.headD []).length, lines.flatten)
  else none

/-- `a.reshape(d0, d1, d2)`: succeeds exactly when the element count
matches, yielding the row-major 3-D view of the flat data. -/
def reshape3 (flat : List ℚ) (d0 d1 d2 : ℕ) : Option (ℕ → ℕ → ℕ → ℚ) :=
  if flat.length = d0 * d1 * d2 then
    some (fun i j k => flat.getD ((i * d1 + j) * d2 + k) 0)
  else none

/-- `age_data = age.reshape(1801, 3601, 3)` applied to a `np.loadtxt`
result. -/
def age_reshape (a : ℕ × ℕ × List ℚ) : Option (ℕ → ℕ → ℕ → ℚ) :=
  reshape3 a.2.2 1801 3601 3

/-- The text-encoding load path of the notebook:
`age = np.loadtxt(...); age_data = age.reshape(1801,3601,3);
age_img = age_data[:,:,2]`. -/
def textLoad (lines : List (List ℚ)) : Option (ℕ → ℕ → ℚ) :=
  (np_loadtxt lines).bind (fun a => (age_reshape a).map (fun d => fun i j => d i j 2))

/-- A compressed `.npz` archive: named arrays, here 2-D value planes. -/
structure Npz where
  entries : List (String × (ℕ → ℕ → ℚ))

/-- `np.load(...)["name"]`: look the named array up in the archive; an
undeclared name raises (models the `KeyError`). -/
def npzGet (z : Npz) (name : String) : Option (ℕ → ℕ → ℚ) :=
  z.entries.lookup name

/-- Writing one last-axis plane of a 3-D buffer:
`a[..., k] = p[...]`. -/
def planeAssign (a : ℕ → ℕ → ℕ → ℚ) (k : ℕ) (p : ℕ → ℕ → ℚ) : ℕ → ℕ → ℕ → ℚ :=
  fun i j k2 => if k2 = k then p i j else a i j k2

/-- `arrlons, arrlats = np.meshgrid(lons, lats)`: the first result
broadcasts the x-vector across rows, the second the y-vector across
columns. -/
def meshgrid (xs ys : ℕ → ℚ) : (ℕ → ℕ → ℚ) × (ℕ → ℕ → ℚ) :=
  (fun _ j => xs j, fun i _ => ys i)

/-- The reconstruction in the notebook, starting from an uninitialised
buffer (`np.empty`), written as the three sequential plane assignments
`age_data[...,0] = arrlons`, `age_data[...,1] = arrlats`,
`age_data[...,2] = ages`. -/
def reconstruct (empty : ℕ → ℕ → ℕ → ℚ) (ages : ℕ → ℕ → ℚ) : ℕ → ℕ → ℕ → ℚ :=
  let m := meshgrid lons lats
  planeAssign (planeAssign (planeAssign empty 0 m.1) 1 m.2) 2 ages

/-- The binary-encoding load path of the notebook:
`ages = np.load(...)["ageData"]`, then the reconstruction; its value plane
is last-axis index 2. -/
def binaryLoad (empty : ℕ → ℕ → ℕ → ℚ) (z : Npz) : Option (ℕ → ℕ → ℚ) :=
  (npzGet z "ageData").map (fun ages => fun i j => reconstruct empty ages i j 2)

/-- The canonical text encoding of a value plane `v` on the 1801 × 3601
grid: one `lon lat value` tuple per line, row-major. -/
def textEncoding (v : ℕ → ℕ → ℚ) : List (List ℚ) :=
  (List.range 1801).flatMap (fun i =>
    (List.range 3601).map (fun j => [lons j, lats i, v i j]))

/-- The binary encoding of a value plane `v`: an archive holding only the
value plane, under the name `"ageData"`. -/
def npzEncoding (v : ℕ → ℕ → ℚ) : Npz :=
  ⟨[("ageData", v)]⟩

end AgeGrid

namespace Netcdf

/-- A self-describing netCDF file as the inspector sees it: named
dimension sizes and named variables carrying their shapes. -/
structure NetcdfFile where
  dimensions : List (String × ℕ)
  vars : List (String × List ℕ)

/-- `nf.variables[name]`: association lookup; an undeclared name raises
(models the `KeyError`), never yields a default. -/
def varShape (nf : NetcdfFile) (name : String) : Option (List ℕ) :=
  nf.vars.lookup name

/-- Modelled from the spec: the fixture file `velocity_AU.nc` is not in the
repository; its declared dimensions `{lat: 161, lon: 360}` and the variable
shapes `(161,)`, `(360,)`, `(360, 161)`, `(360, 161)` are taken from the
spec's fixture description and the notebook's recorded cell output. -/
def velocity_AU : NetcdfFile :=
  { dimensions := [("lat", 161), ("lon", 360)]
    vars := [("ve", [360, 161]), ("vn", [360, 161]),
                  ("lat", [161]), ("lon", [360])] }

/-- The inspection step of the notebook: look up and report the shapes of
`"lat"`, `"lon"`, `"ve"`, `"vn"` in that order; any failed lookup aborts
the whole report (no partial result). -/
def inspect (nf : NetcdfFile) : Option (List ℕ × List ℕ × List ℕ × List ℕ) :=
  (varShape nf "lat").bind (fun a =>
    (varShape nf "lon").bind (fun b =>
      (varShape nf "ve").bind (fun c =>
        (varShape nf "vn").map (fun d => (a, b, c, d)))))

end Netcdf

namespace Script

open AgeGrid

/-- The whole script's mutable environment: the three read-only input
files and the name bindings the script creates. -/
structure ScriptState where
  textFile : List (List ℚ)
  npzFile : Npz
  ncFile : Netcdf.NetcdfFile
  age_img : Option (ℕ → ℕ → ℚ)
  ages : Option (ℕ → ℕ → ℚ)
  age_data : Option (ℕ → ℕ → ℕ → ℚ)

/-- Part one of the notebook: load the text file and bind the value
plane to `age_img`.  Only the `age_img` binding is written. -/
def stepTextLoad (s : ScriptState) : ScriptState :=
  { s with age_img := textLoad s.textFile }

/-- Part two, first half: load the stored value plane from the archive
and bind it to `ages`. -/
def stepNpzLoad (s : ScriptState) : ScriptState :=
  { s with ages := npzGet s.npzFile "ageData" }

/-- Part two, second half: allocate a fresh buffer and fill its three
planes; only the fresh `age_data` binding is written. -/
def stepReconstruct (empty : ℕ → ℕ → ℕ → ℚ) (s : ScriptState) : ScriptState :=
  { s with age_data := s.ages.map (reconstruct empty) }

/-- The full script in notebook order; the final netCDF inspection only
reads `ncFile` and produces the report. -/
def runScript (empty : ℕ → ℕ → ℕ → ℚ) (s : ScriptState) :
    ScriptState × Option (List ℕ × List ℕ × List ℕ × List ℕ) :=
  let s3 := stepReconstruct empty (stepNpzLoad (stepTextLoad s))
  (s3, Netcdf.inspect s3.ncFile)

end Script

/-! ### Supporting lemmas -/

namespace AgeGrid

lemma lats_eq (i : ℕ) : lats i = 90 - (i : ℚ) / 10 := by
  have h : ¬ (1801 ≤ 1) := by norm_num
  simp only [lats, linspace, if_neg h]
  norm_num
  ring

lemma lons_eq (j : ℕ) : lons j = -180 + (j : ℚ) / 10 := by
  have h : ¬ (3601 ≤ 1) := by norm_num
  simp only [lons, linspace, if_neg h]
  norm_num
  ring

lemma lons_strictMono {j j' : ℕ} (h : j < j') : lons j < lons j' := by
  rw [lons_eq, lons_eq]
  gcongr


lemma lats_strictAnti {i i' : ℕ} (h : i < i') : lats i' < lats i := by
  rw [lats_eq, lats_eq]
  gcongr


/-- `getD` of a flattened list of uniform-width rows picks the row-major
element. -/
lemma flatten_getD {α : Type} (d : α) :
    ∀ (L : List (List α)) (w m k : ℕ), (∀ r ∈ L, r.length = w) →
      m < L.length → k < w →
      L.flatten.getD (m * w + k) d = (L.getD m []).getD k d := by
  intro L
  induction L with
  | nil => intro w m k _ hm _; simp at hm
  | cons r t ih =>
      intro w m k hL hm hk
      have hr : r.length = w := hL r (List.mem_cons_self r t)
      cases m with
      | zero =>
          rw [List.flatten_cons, Nat.zero_mul, Nat.zero_add,
            List.getD_append _ _ _ _ (by omega), List.getD_cons_zero]
      | succ m =>
          have hidx : (m + 1) * w + k = r.length + (m * w + k) := by
            rw [hr]; ring
          rw [List.flatten_cons, hidx,
            List.getD_append_right _ _ _ _ (Nat.le_add_right _ _),
            Nat.add_sub_cancel_left, List.getD_cons_succ]
          refine ih w m k (fun q hq => hL q (List.mem_cons_of_mem _ hq)) ?_ hk
          simpa using hm

/-- Length of a flattened list of uniform-width rows. -/
lemma flatten_length_uniform {α : Type} :
    ∀ (L : List (List α)) (w : ℕ), (∀ r ∈ L, r.length = w) →
      L.flatten.length = L.length * w := by
  intro L
  induction L with
  | nil => intro w _; simp
  | cons r t ih =>
      intro w hL
      rw [List.flatten_cons, List.length_append,
        hL r (List.mem_cons_self r t),
        ih w (fun q hq => hL q (List.mem_cons_of_mem _ hq))]
      simp [List.length_cons]
      ring

lemma getD_map_range {α : Type} (d : α) (f : ℕ → α) {n m : ℕ} (h : m < n) :
    ((List.range n).map f).getD m d = f m := by
  rw [List.getD_eq_getElem?_getD, List.getElem?_map, List.getElem?_range h]
  rfl

end AgeGrid

namespace AgeGrid

lemma textEncoding_eq_flatten (v : ℕ → ℕ → ℚ) :
    textEncoding v = ((List.range 1801).map (fun i =>
      (List.range 3601).map (fun j => [lons j, lats i, v i j]))).flatten :=
  List.flatMap_def _ _

lemma textEncoding_rows (v : ℕ → ℕ → ℚ) : ∀ r ∈ textEncoding v, r.length = 3 := by
  intro r hr
  simp only [textEncoding, List.mem_flatMap, List.mem_map] at hr
  obtain ⟨i, _, j, _, rfl⟩ := hr
  rfl

lemma textEncoding_length (v : ℕ → ℕ → ℚ) :
    (textEncoding v).length = 1801 * 3601 := by
  rw [textEncoding_eq_flatten,
    flatten_length_uniform _ 3601 (by
      intro r hr
      simp only [List.mem_map] at hr
      obtain ⟨i, _, rfl⟩ := hr
      simp)]
  simp

lemma textEncoding_getD (v : ℕ → ℕ → ℚ) (i j : ℕ) (hi : i < 1801) (hj : j < 3601) :
    (textEncoding v).getD (i * 3601 + j) [] = [lons j, lats i, v i j] := by
  rw [textEncoding_eq_flatten,
    flatten_getD ([] : List ℚ) _ 3601 i j
      (by
        intro r hr
        simp only [List.mem_map] at hr
        obtain ⟨a, _, rfl⟩ := hr
        simp)
      (by simpa using hi) hj,
    getD_map_range _ _ hi, getD_map_range _ _ hj]

lemma np_loadtxt_uniform (lines : List (List ℚ)) (w : ℕ)
    (hw : ∀ r ∈ lines, r.length = w) :
    np_loadtxt lines = some (lines.length, (lines.headD []).length, lines.flatten) := by
  unfold np_loadtxt
  rw [if_pos]
  rw [List.all_eq_true]
  intro r hr
  have hne : lines ≠ [] := by rintro rfl; cases hr
  have hh : (lines.headD []).length = w := by
    cases lines with
    | nil => exact absurd rfl hne
    | cons a t => exact hw a (List.mem_cons_self a t)
  simp only [beq_iff_eq, hw r hr, hh]

lemma np_loadtxt_textEncoding (v : ℕ → ℕ → ℚ) :
    np_loadtxt (textEncoding v) = some (1801 * 3601, 3, (textEncoding v).flatten) := by
  have hne : textEncoding v ≠ [] := by
    intro h
    have hl := textEncoding_length v
    rw [h] at hl
    simp at hl
  have hh : ((textEncoding v).headD []).length = 3 := by
    cases he : textEncoding v with
    | nil => exact absurd he hne
    | cons a t =>
        simp only [List.headD_cons]
        exact textEncoding_rows v a (he ▸ List.mem_cons_self a t)
  rw [np_loadtxt_uniform _ 3 (textEncoding_rows v), textEncoding_length, hh]

lemma textEncoding_flatten_length (v : ℕ → ℕ → ℚ) :
    (textEncoding v).flatten.length = 1801 * 3601 * 3 := by
  rw [flatten_length_uniform _ 3 (textEncoding_rows v), textEncoding_length]

lemma age_reshape_textEncoding (v : ℕ → ℕ → ℚ) :
    age_reshape (1801 * 3601, 3, (textEncoding v).flatten)
      = some (fun i j k => (textEncoding v).flatten.getD ((i * 3601 + j) * 3 + k) 0) := by
  have h := textEncoding_flatten_length v
  unfold age_reshape reshape3
  rw [h, if_pos rfl]

lemma index_lt (i j : ℕ) (hi : i < 1801) (hj : j < 3601) :
    i * 3601 + j < 1801 * 3601 :=
  calc i * 3601 + j < i * 3601 + 3601 := by omega
    _ = (i + 1) * 3601 := by ring
    _ ≤ 1801 * 3601 := Nat.mul_le_mul_right 3601 (by omega)

lemma textEncoding_flatten_getD (v : ℕ → ℕ → ℚ) (i j k : ℕ)
    (hi : i < 1801) (hj : j < 3601) (hk : k < 3) :
    (textEncoding v).flatten.getD ((i * 3601 + j) * 3 + k) 0
      = [lons j, lats i, v i j].getD k 0 := by
  rw [flatten_getD 0 (textEncoding v) 3 (i * 3601 + j) k (textEncoding_rows v)
      (by rw [textEncoding_length]; exact index_lt i j hi hj) hk,
    textEncoding_getD v i j hi hj]

lemma textLoad_spec (v : ℕ → ℕ → ℚ) (i j : ℕ) (hi : i < 1801) (hj : j < 3601) :
    ∃ d, (np_loadtxt (textEncoding v)).bind age_reshape = some d ∧
      d i j 0 = lons j ∧ d i j 1 = lats i ∧ d i j 2 = v i j ∧
      textLoad (textEncoding v) = some (fun a b => d a b 2) := by
  have h1 := np_loadtxt_textEncoding v
  have h2 := age_reshape_textEncoding v
  refine ⟨fun a b c => (textEncoding v).flatten.getD ((a * 3601 + b) * 3 + c) 0,
    ?_, ?_, ?_, ?_, ?_⟩
  · rw [h1, Option.some_bind]
    exact h2
  · show (textEncoding v).flatten.getD ((i * 3601 + j) * 3 + 0) 0 = lons j
    rw [textEncoding_flatten_getD v i j 0 hi hj (by omega), List.getD_cons_zero]
  · show (textEncoding v).flatten.getD ((i * 3601 + j) * 3 + 1) 0 = lats i
    rw [textEncoding_flatten_getD v i j 1 hi hj (by omega), List.getD_cons_succ,
      List.getD_cons_zero]
  · show (textEncoding v).flatten.getD ((i * 3601 + j) * 3 + 2) 0 = v i j
    rw [textEncoding_flatten_getD v i j 2 hi hj (by omega), List.getD_cons_succ,
      List.getD_cons_succ, List.getD_cons_zero]
  · unfold textLoad
    rw [h1, Option.some_bind, h2, Option.map_some']

end AgeGrid

/-! ### Claim theorems -/

namespace AgeGrid

/-- C1: for every grid dataset stored in both encodings, the value plane
obtained from the text encoding (parse, reshape to (1801, 3601, 3), take
the last-axis slice at index 2) is numerically identical, point for point
on the grid, to the value plane loaded from the compressed archive under
the name "ageData": the two load paths refine the same logical dataset. -/
theorem C1_two_encodings_same_value_plane (v : ℕ → ℕ → ℚ) (empty : ℕ → ℕ → ℕ → ℚ)
    (i j : ℕ) (hi : i < 1801) (hj : j < 3601) :
    ∃ tv bv, textLoad (textEncoding v) = some tv ∧
      binaryLoad empty (npzEncoding v) = some bv ∧ tv i j = bv i j := by
  obtain ⟨d, _, _, _, h2, htl⟩ := textLoad_spec v i j hi hj
  refine ⟨_, _, htl, rfl, ?_⟩
  show d i j 2 = reconstruct empty v i j 2
  rw [h2]
  simp [reconstruct, planeAssign, meshgrid]

/-- Closed witness for C1: both load paths of the all-zero plane agree at
the origin. -/
theorem C1_two_encodings_same_value_plane_witness :
    ∃ tv bv, textLoad (textEncoding (fun _ _ => 0)) = some tv ∧
      binaryLoad (fun _ _ _ => 0) (npzEncoding (fun _ _ => 0)) = some bv ∧
      tv 0 0 = bv 0 0 :=
  C1_two_encodings_same_value_plane (fun _ _ => 0) (fun _ _ _ => 0) 0 0
    (by norm_num) (by norm_num)

/-- C2: parsing the text-encoded grid file yields the 3-D array of shape
(1801, 3601, 3): loadtxt returns 1801·3601 rows of width 3, the reshape
succeeds, the last axis at [i, j] holds the (longitude, latitude, value)
triple of that grid position, and the value plane of the dataset is the
last-axis slice at index 2. -/
theorem C2_text_parse_shape_planes (v : ℕ → ℕ → ℚ) (i j : ℕ)
    (hi : i < 1801) (hj : j < 3601) :
    np_loadtxt (textEncoding v) = some (1801 * 3601, 3, (textEncoding v).flatten) ∧
    ∃ d, (np_loadtxt (textEncoding v)).bind age_reshape = some d ∧
      d i j 0 = lons j ∧ d i j 1 = lats i ∧ d i j 2 = v i j ∧
      textLoad (textEncoding v) = some (fun a b => d a b 2) :=
  ⟨np_loadtxt_textEncoding v, textLoad_spec v i j hi hj⟩

/-- Closed witness for C2 at the all-zero plane and the origin. -/
theorem C2_text_parse_shape_planes_witness :
    np_loadtxt (textEncoding (fun _ _ => 0))
        = some (1801 * 3601, 3, (textEncoding (fun _ _ => 0)).flatten) ∧
    ∃ d, (np_loadtxt (textEncoding (fun _ _ => 0))).bind age_reshape = some d ∧
      d 0 0 0 = lons 0 ∧ d 0 0 1 = lats 0 ∧ d 0 0 2 = 0 ∧
      textLoad (textEncoding (fun _ _ => 0)) = some (fun a b => d a b 2) :=
  C2_text_parse_shape_planes (fun _ _ => 0) 0 0 (by norm_num) (by norm_num)

/-- C3: reconstruction from the compressed binary encoding produces the
full logical array without reading coordinates from disk: plane 0 at
[i, j] is the j-th of the 3601 evenly spaced longitudes from -180 to 180,
plane 1 the i-th of the 1801 evenly spaced latitudes from 90 to -90, and
plane 2 equals the stored value plane "ageData" element for element. -/
theorem C3_binary_reconstruction (empty : ℕ → ℕ → ℕ → ℚ) (ages : ℕ → ℕ → ℚ)
    (i j : ℕ) :
    reconstruct empty ages i j 0 = linspace (-180) 180 3601 j ∧
    reconstruct empty ages i j 1 = linspace 90 (-90) 1801 i ∧
    reconstruct empty ages i j 2 = ages i j ∧
    binaryLoad empty (npzEncoding ages)
      = some (fun a b => reconstruct empty ages a b 2) := by
  refine ⟨?_, ?_, ?_, rfl⟩ <;> simp [reconstruct, planeAssign, meshgrid, lons, lats]

end AgeGrid

namespace Netcdf

lemma lookup_eq_none_of_forall_ne {β : Type} (l : List (String × β)) (name : String)
    (h : ∀ p ∈ l, p.1 ≠ name) : l.lookup name = none := by
  induction l with
  | nil => rfl
  | cons p t ih =>
      obtain ⟨a, b⟩ := p
      have hne : (name == a) = false := by
        rw [beq_eq_false_iff_ne]
        exact fun e => h (a, b) (List.mem_cons_self _ _) e.symm
      rw [List.lookup_cons, hne]
      exact ih (fun q hq => h q (List.mem_cons_of_mem _ hq))

end Netcdf

/-- C4: opening the well-formed self-describing netCDF fixture returns the
declared dimension sizes exactly {lat: 161, lon: 360}, and the shapes of
the four named variables are (161,) for "lat", (360,) for "lon", and
(360, 161) for each of "ve" and "vn". -/
theorem C4_netcdf_fixture :
    Netcdf.velocity_AU.dimensions = [("lat", 161), ("lon", 360)] ∧
    Netcdf.varShape Netcdf.velocity_AU "lat" = some [161] ∧
    Netcdf.varShape Netcdf.velocity_AU "lon" = some [360] ∧
    Netcdf.varShape Netcdf.velocity_AU "ve" = some [360, 161] ∧
    Netcdf.varShape Netcdf.velocity_AU "vn" = some [360, 161] :=
  ⟨rfl, rfl, rfl, rfl, rfl⟩

/-- C5: looking up any variable name not declared in the self-describing
file fails (no entry is returned); it never produces a default or
placeholder value. -/
theorem C5_undeclared_variable_fails (nf : Netcdf.NetcdfFile) (name : String)
    (h : ∀ p ∈ nf.vars, p.1 ≠ name) :
    Netcdf.varShape nf name = none :=
  Netcdf.lookup_eq_none_of_forall_ne nf.vars name h

/-- Closed witness for C5: the fixture declares no variable "depth". -/
theorem C5_undeclared_variable_fails_witness :
    Netcdf.varShape Netcdf.velocity_AU "depth" = none :=
  C5_undeclared_variable_fails Netcdf.velocity_AU "depth" (by decide)

namespace AgeGrid

/-- C6: every failure of a load or inspect operation is fatal: the failure
of the underlying read propagates to the whole operation's result, with no
retry, no recovery and no partial result. -/
theorem C6_failures_fatal (lines : List (List ℚ)) (empty : ℕ → ℕ → ℕ → ℚ)
    (z : Npz) (nf : Netcdf.NetcdfFile) :
    (np_loadtxt lines = none → textLoad lines = none) ∧
    (∀ a, np_loadtxt lines = some a → age_reshape a = none → textLoad lines = none) ∧
    (npzGet z "ageData" = none → binaryLoad empty z = none) ∧
    (Netcdf.varShape nf "ve" = none → Netcdf.inspect nf = none) := by
  refine ⟨?_, ?_, ?_, ?_⟩
  · intro h
    simp only [textLoad, h, Option.none_bind]
  · intro a h ha
    simp only [textLoad, h, Option.some_bind, ha, Option.map_none']
  · intro h
    simp only [binaryLoad, h, Option.map_none']
  · intro h
    cases hlat : Netcdf.varShape nf "lat" <;>
      cases hlon : Netcdf.varShape nf "lon" <;>
      simp [Netcdf.inspect, h, hlat, hlon]

/-- Closed witness for C6: a ragged text file makes the text load fail
outright, and a netCDF file with no variables makes the whole inspection
report fail. -/
theorem C6_failures_fatal_witness :
    textLoad [[(0 : ℚ)], [0, 0]] = none ∧
    Netcdf.inspect { dimensions := [], vars := [] } = none :=
  ⟨(C6_failures_fatal [[(0 : ℚ)], [0, 0]] (fun _ _ _ => 0) ⟨[]⟩
      { dimensions := [], vars := [] }).1 (by rfl),
   (C6_failures_fatal [[(0 : ℚ)], [0, 0]] (fun _ _ _ => 0) ⟨[]⟩
      { dimensions := [], vars := [] }).2.2.2 (by rfl)⟩

end AgeGrid

namespace AgeGrid

/-- C8: no operation of the script mutates an input: the three input
files pass through the whole run unchanged, no previously loaded array is
modified by a later operation, and the reconstruction writes only the
three last-axis planes of the freshly allocated buffer. -/
theorem C8_inputs_unchanged (s : Script.ScriptState) (empty : ℕ → ℕ → ℕ → ℚ) :
    (Script.runScript empty s).1.textFile = s.textFile ∧
    (Script.runScript empty s).1.npzFile = s.npzFile ∧
    (Script.runScript empty s).1.ncFile = s.ncFile ∧
    (Script.runScript empty s).1.age_img = textLoad s.textFile ∧
    (Script.runScript empty s).1.ages = npzGet s.npzFile "ageData" ∧
    (∀ ages i j k, 3 ≤ k → reconstruct empty ages i j k = empty i j k) := by
  refine ⟨rfl, rfl, rfl, rfl, rfl, ?_⟩
  intro ages i j k hk
  have h2 : k ≠ 2 := by omega
  have h1 : k ≠ 1 := by omega
  have h0 : k ≠ 0 := by omega
  simp [reconstruct, planeAssign, meshgrid, h0, h1, h2]

/-- Closed witness for C8: on a tiny concrete state the inputs survive the
run, and the buffer is untouched beyond plane 2. -/
theorem C8_inputs_unchanged_witness :
    (Script.runScript (fun _ _ _ => 0)
        { textFile := [], npzFile := ⟨[]⟩,
          ncFile := { dimensions := [], vars := [] },
          age_img := none, ages := none, age_data := none }).1.textFile = [] ∧
    reconstruct (fun _ _ _ => 7) (fun _ _ => 0) 0 0 3 = 7 :=
  ⟨(C8_inputs_unchanged
      { textFile := [], npzFile := ⟨[]⟩,
        ncFile := { dimensions := [], vars := [] },
        age_img := none, ages := none, age_data := none }
      (fun _ _ _ => 0)).1,
   (C8_inputs_unchanged
      { textFile := [], npzFile := ⟨[]⟩,
        ncFile := { dimensions := [], vars := [] },
        age_img := none, ages := none, age_data := none }
      (fun _ _ _ => 7)).2.2.2.2.2 (fun _ _ => 0) 0 0 3 (by norm_num)⟩

/-- Counterexample to C9 as stated: a file holding one single line of
19456203 numbers parses and reshapes to (1801, 3601, 3) successfully, even
though it does not consist of 1801·3601 lines of 3 numbers each, so the
stated "only if" direction fails. -/
theorem C9_counterexample :
    ((np_loadtxt [List.replicate 19456203 (0 : ℚ)]).bind age_reshape).isSome = true ∧
    [List.replicate 19456203 (0 : ℚ)].length ≠ 1801 * 3601 := by
  constructor
  · have hw : ∀ q ∈ [List.replicate 19456203 (0 : ℚ)], q.length = 19456203 := by
      intro q hq
      simp only [List.mem_singleton] at hq
      subst hq
      exact List.length_replicate _ _
    rw [np_loadtxt_uniform _ 19456203 hw, Option.some_bind]
    unfold age_reshape reshape3
    rw [flatten_length_uniform _ 19456203 hw]
    norm_num
  · norm_num

/-- C9 amended: for a well-formed (non-ragged) file of `L` lines of `w`
numbers each, the parse-and-reshape pipeline succeeds if and only if the
total element count `L · w` equals 1801·3601·3 = 19456203; the spec's
happy path, 6485001 lines of 3 numbers each, is one such factorisation
but not the only one. -/
theorem C9_reshape_succeeds_iff_total_count (lines : List (List ℚ)) (w : ℕ)
    (hw : ∀ r ∈ lines, r.length = w) :
    ((np_loadtxt lines).bind age_reshape).isSome = true
      ↔ lines.length * w = 1801 * 3601 * 3 := by
  rw [np_loadtxt_uniform _ w hw, Option.some_bind]
  unfold age_reshape reshape3
  rw [flatten_length_uniform _ w hw]
  by_cases h : lines.length * w = 1801 * 3601 * 3
  · simp [h]
  · simp [h]

/-- Closed witness for C9 amended: a single well-formed line of three
numbers parses but fails the reshape, matching the count criterion. -/
theorem C9_reshape_succeeds_iff_total_count_witness :
    ((np_loadtxt [[(0 : ℚ), 0, 0]]).bind age_reshape).isSome = true
      ↔ [[(0 : ℚ), 0, 0]].length * 3 = 1801 * 3601 * 3 :=
  C9_reshape_succeeds_iff_total_count [[(0 : ℚ), 0, 0]] 3 (by
    intro r hr
    simp only [List.mem_singleton] at hr
    subst hr
    rfl)

/-- C10: the reconstructed coordinate planes are separable and monotone:
plane 0 depends only on the column and plane 1 only on the row; the
longitudes strictly increase, from -180 at column 0 to 180 at column 3600
(the wrap-around meridian appears at both ends); the latitudes strictly
decrease, from 90 at row 0 to -90 at row 1800 (the rows run north to
south). -/
theorem C10_planes_separable_monotone (empty : ℕ → ℕ → ℕ → ℚ) (ages : ℕ → ℕ → ℚ) :
    (∀ i i' j, reconstruct empty ages i j 0 = reconstruct empty ages i' j 0) ∧
    (∀ i j j', reconstruct empty ages i j 1 = reconstruct empty ages i j' 1) ∧
    (∀ j j', j < j' → lons j < lons j') ∧
    lons 0 = -180 ∧ lons 3600 = 180 ∧
    (∀ i i', i < i' → lats i' < lats i) ∧
    lats 0 = 90 ∧ lats 1800 = -90 := by
  refine ⟨?_, ?_, fun j j' h => lons_strictMono h, ?_, ?_,
    fun i i' h => lats_strictAnti h, ?_, ?_⟩
  · intro i i' j
    simp [reconstruct, planeAssign, meshgrid]
  · intro i j j'
    simp [reconstruct, planeAssign, meshgrid]
  · rw [lons_eq]; norm_num
  · rw [lons_eq]; norm_num
  · rw [lats_eq]; norm_num
  · rw [lats_eq]; norm_num

/-- Closed witness for C10 at concrete rows and columns. -/
theorem C10_planes_separable_monotone_witness :
    reconstruct (fun _ _ _ => 0) (fun _ _ => 0) 0 5 0
        = reconstruct (fun _ _ _ => 0) (fun _ _ => 0) 7 5 0 ∧
    lons 0 < lons 1 ∧ lats 1 < lats 0 ∧ lats 0 = 90 :=
  ⟨(C10_planes_separable_monotone (fun _ _ _ => 0) (fun _ _ => 0)).1 0 7 5,
   (C10_planes_separable_monotone (fun _ _ _ => 0) (fun _ _ => 0)).2.2.1 0 1
     (by norm_num),
   (C10_planes_separable_monotone (fun _ _ _ => 0) (fun _ _ => 0)).2.2.2.2.2.1 0 1
     (by norm_num),
   (C10_planes_separable_monotone (fun _ _ _ => 0) (fun _ _ => 0)).2.2.2.2.2.2.1⟩

end AgeGrid
